import Mathlib

/-!
# Credential resolution in `cloud/scope/clients.go`

A shallow embedding of `AzureClients.setCredentials` and
`GetAzureDNSZoneForEnvironment`, followed by theorems about them.

Modelling conventions
* A Go `string` is a Lean `String`.
* A Go `map[string]string` is a function `String → Option String`; reading a key
  that is not present yields the zero value `""`, as `m[k]` does in Go.
* A Go `error` is `Option GoError`, `none` standing for `nil`.
* The receiver `c *AzureClients` is passed explicitly and returned, so the fields
  written before an early return are visible in the result.
* The two collaborators (`auth.GetSettingsFromEnvironment` and
  `EnvironmentSettings.GetAuthorizer`) are parameters; every invocation of
  `GetAuthorizer` is recorded together with the settings it is invoked on.
-/

namespace scope

/-! ## Go library pieces used by the source -/

/-- A Go error value, identified by the text its `Error()` method returns. -/
structure GoError where
  message : String
deriving DecidableEq, Repr

/-- The `fmt.Errorf` call of the source with a format string without verbs. -/
def fmt.Errorf (format : String) : GoError := ⟨format⟩

/-- Go `strings.HasSuffix`:
`len(s) >= len(suffix) && s[len(s)-len(suffix):] == suffix`. -/
def strings.HasSuffix (s suffix : String) : Bool :=
  decide (suffix.data.length ≤ s.data.length) &&
    (s.data.drop (s.data.length - suffix.data.length) == suffix.data)

/-- Go `strings.TrimSuffix`: when `s` ends in `suffix` the result is
`s[:len(s)-len(suffix)]`, otherwise `s` itself. -/
def strings.TrimSuffix (s suffix : String) : String :=
  if strings.HasSuffix s suffix then
    ⟨s.data.take (s.data.length - suffix.data.length)⟩
  else s

/-- A value of the interface type `autorest.Authorizer`. The source only stores
it, so a handle is enough to tell two values apart; `null` is the Go `nil`. -/
inductive Authorizer where
  | null : Authorizer
  | handle (id : Nat) : Authorizer
deriving DecidableEq, Repr

/-- Modelled from the spec: the key constants of the `auth` package, which is not
under src/. The spec lists the well-known keys `SubscriptionID`, `TenantID`,
`ClientID`, `ClientSecret` and `EnvironmentName`; the strings are the names of
the environment variables (the source's own error text names
`AZURE_SUBSCRIPTION_ID`). Only their being pairwise different is used. -/
def auth.SubscriptionID : String := "AZURE_SUBSCRIPTION_ID"

/-- Modelled from the spec: key of the tenant id in the settings values. -/
def auth.TenantID : String := "AZURE_TENANT_ID"

/-- Modelled from the spec: key of the client id in the settings values. -/
def auth.ClientID : String := "AZURE_CLIENT_ID"

/-- Modelled from the spec: key of the client secret in the settings values. -/
def auth.ClientSecret : String := "AZURE_CLIENT_SECRET"

/-- Modelled from the spec: key of the environment name in the settings values. -/
def auth.EnvironmentName : String := "AZURE_ENVIRONMENT"

/-- Modelled from the spec: the nested `Environment` descriptor of the settings
object (`azure.Environment`, not under src/), with the two fields the source
reads, `Name` and `ResourceManagerEndpoint`. -/
structure azure.Environment where
  Name : String
  ResourceManagerEndpoint : String
deriving DecidableEq, Repr

/-- Modelled from the spec: `azure.PublicCloud.Name`, the public-cloud
environment name the source falls back to (not under src/). -/
def azure.PublicCloud.Name : String := "AzurePublicCloud"

/-- A Go `map[string]string`. -/
abbrev Values := String → Option String

/-- Go `m[k]`: the stored value, or `""` when the key is not present. -/
def Values.get (m : Values) (k : String) : String := (m k).getD ""

/-- Go `m[k] = v`. -/
def Values.set (m : Values) (k v : String) : Values :=
  fun k' => if k' = k then some v else m k'

/-- Modelled from the spec: the settings object handed out by the settings
provider (`auth.EnvironmentSettings`, not under src/): a mutable mapping from
keys to strings and a nested environment descriptor. -/
structure EnvironmentSettings where
  Values : Values
  Environment : azure.Environment

/-- Modelled from the spec: `EnvironmentSettings.GetSubscriptionID` (not under
src/), the ambient default subscription id, which is the value stored under the
`SubscriptionID` key. -/
def EnvironmentSettings.GetSubscriptionID (settings : EnvironmentSettings) : String :=
  settings.Values.get auth.SubscriptionID

/-- Modelled from the spec: how the settings provider resolves the nested
environment descriptor (`auth.GetSettingsFromEnvironment`, not under src/). The
descriptor is the environment metadata resolved from the `EnvironmentName`
value: when that value is absent or empty the provider installs
`azure.PublicCloud`, whose `Name` is `azure.PublicCloud.Name`. Every settings
object the provider hands out satisfies this. -/
def EnvironmentSettings.descriptorResolved (settings : EnvironmentSettings) : Prop :=
  settings.Values.get auth.EnvironmentName = "" →
    settings.Environment.Name = azure.PublicCloud.Name

/-- The two external collaborators of `setCredentials`.
`GetSettingsFromEnvironment` either fails or hands out a settings object;
`GetAuthorizer` is a method of the settings object and returns the Go pair
`(autorest.Authorizer, error)`. -/
structure Collaborators where
  GetSettingsFromEnvironment : Except GoError EnvironmentSettings
  GetAuthorizer : EnvironmentSettings → Authorizer × Option GoError

/-! ## The source -/

/-- Source constant `ChinaCloud`. -/
def ChinaCloud : String := "AzureChinaCloud"

/-- Source constant `GermanCloud`. -/
def GermanCloud : String := "AzureGermanCloud"

/-- Source constant `PublicCloud`. -/
def PublicCloud : String := "AzurePublicCloud"

/-- Source constant `USGovernmentCloud`. -/
def USGovernmentCloud : String := "AzureUSGovernmentCloud"

/-- The struct `AzureClients`. -/
structure AzureClients where
  Authorizer : Authorizer
  environment : String
  ResourceManagerEndpoint : String
  ResourceManagerVMDNSSuffix : String
  subscriptionID : String
  tenantID : String
  clientID : String
  clientSecret : String
deriving DecidableEq, Repr

/-- Accessor `CloudEnvironment()`. -/
def AzureClients.CloudEnvironment (c : AzureClients) : String := c.environment

/-- Accessor `SubscriptionID()`. -/
def AzureClients.SubscriptionID (c : AzureClients) : String := c.subscriptionID

/-- Accessor `TenantID()`. -/
def AzureClients.TenantID (c : AzureClients) : String := c.tenantID

/-- Accessor `ClientID()`. -/
def AzureClients.ClientID (c : AzureClients) : String := c.clientID

/-- Accessor `ClientSecret()`. -/
def AzureClients.ClientSecret (c : AzureClients) : String := c.clientSecret

/-- The function `GetAzureDNSZoneForEnvironment`: a `switch` on the name with a
default arm. -/
def GetAzureDNSZoneForEnvironment (environmentName : String) : String :=
  if environmentName = ChinaCloud then "cloudapp.chinacloudapi.cn"
  else if environmentName = GermanCloud then "cloudapp.microsoftazure.de"
  else if environmentName = PublicCloud then "cloudapp.azure.com"
  else if environmentName = USGovernmentCloud then "cloudapp.usgovcloudapi.net"
  else "cloudapp.azure.com"

/-- What one call of `setCredentials` leaves behind: the receiver after the
call, the returned `error`, and the settings objects on which `GetAuthorizer`
was invoked, in call order, each as it was at the time of the call. -/
structure Outcome where
  c : AzureClients
  err : Option GoError
  authorizerCalls : List EnvironmentSettings

/-- The text of the error returned when no subscription id can be resolved. -/
def missingSubscriptionText : String :=
  "error creating azure services. subscriptionID is not set in cluster or AZURE_SUBSCRIPTION_ID env var"

/-- The subscription id block of `setCredentials` (source lines 82 to 87): the
hint when it is not empty, else the ambient default, else the error. -/
def resolveSubscriptionID (settings : EnvironmentSettings) (subscriptionID : String) :
    Except GoError String :=
  if subscriptionID = "" then
    let subscriptionID := settings.GetSubscriptionID
    if subscriptionID = "" then
      Except.error (fmt.Errorf missingSubscriptionText)
    else Except.ok subscriptionID
  else Except.ok subscriptionID

/-- The method `(c *AzureClients) setCredentials(subscriptionID string) error`,
statement by statement. -/
def setCredentials (env : Collaborators) (c : AzureClients) (subscriptionID : String) :
    Outcome :=
  match env.GetSettingsFromEnvironment with
  | Except.error err => { c := c, err := some err, authorizerCalls := [] }
  | Except.ok settings =>
    match resolveSubscriptionID settings subscriptionID with
    | Except.error err => { c := c, err := some err, authorizerCalls := [] }
    | Except.ok subscriptionID =>
      let c := { c with subscriptionID := subscriptionID }
      let c := { c with tenantID := strings.TrimSuffix (settings.Values.get auth.TenantID) "\n" }
      let c := { c with clientID := strings.TrimSuffix (settings.Values.get auth.ClientID) "\n" }
      let c := { c with
        clientSecret := strings.TrimSuffix (settings.Values.get auth.ClientSecret) "\n" }
      let c := { c with environment := settings.Values.get auth.EnvironmentName }
      let c := if c.environment = "" then { c with environment := azure.PublicCloud.Name } else c
      let c := { c with ResourceManagerEndpoint := settings.Environment.ResourceManagerEndpoint }
      let c := { c with
        ResourceManagerVMDNSSuffix := GetAzureDNSZoneForEnvironment settings.Environment.Name }
      let settings := { settings with
        Values := settings.Values.set auth.SubscriptionID subscriptionID }
      let settings := { settings with Values := settings.Values.set auth.TenantID c.tenantID }
      let r := env.GetAuthorizer settings
      { c := { c with Authorizer := r.1 }, err := r.2, authorizerCalls := [settings] }

/-- The settings object after the two write-backs of source lines 101 and 102:
first the subscription id, then the tenant id. -/
def writtenBack (settings : EnvironmentSettings) (subscriptionID tenantID : String) :
    EnvironmentSettings :=
  { settings with
    Values := (settings.Values.set auth.SubscriptionID subscriptionID).set auth.TenantID tenantID }

/-- The receiver fields as `setCredentials` leaves them when it reaches the
call of `GetAuthorizer` with subscription id `subscriptionID`, and that call
returns the authorizer `a`. -/
def resolvedClients (settings : EnvironmentSettings) (subscriptionID : String)
    (a : Authorizer) : AzureClients :=
  { Authorizer := a
    environment :=
      if settings.Values.get auth.EnvironmentName = "" then azure.PublicCloud.Name
      else settings.Values.get auth.EnvironmentName
    ResourceManagerEndpoint := settings.Environment.ResourceManagerEndpoint
    ResourceManagerVMDNSSuffix := GetAzureDNSZoneForEnvironment settings.Environment.Name
    subscriptionID := subscriptionID
    tenantID := strings.TrimSuffix (settings.Values.get auth.TenantID) "\n"
    clientID := strings.TrimSuffix (settings.Values.get auth.ClientID) "\n"
    clientSecret := strings.TrimSuffix (settings.Values.get auth.ClientSecret) "\n" }

/-- Every call of `GetAuthorizer` made during the run succeeded. -/
def Outcome.authorizerSucceeded (env : Collaborators) (out : Outcome) : Prop :=
  ∀ s ∈ out.authorizerCalls, (env.GetAuthorizer s).2 = none

/-- Every call of `GetAuthorizer` made during the run failed with `e`. -/
def Outcome.authorizerFailedWith (env : Collaborators) (out : Outcome) (e : GoError) : Prop :=
  ∀ s ∈ out.authorizerCalls, (env.GetAuthorizer s).2 = some e

/-- Two receivers hold the same `subscriptionID`, `tenantID`, `clientID`,
`clientSecret`, `environment`, `ResourceManagerEndpoint` and
`ResourceManagerVMDNSSuffix`; the authorizer is left aside. -/
def sameResolvedFields (a b : AzureClients) : Prop :=
  a.subscriptionID = b.subscriptionID ∧ a.tenantID = b.tenantID ∧
  a.clientID = b.clientID ∧ a.clientSecret = b.clientSecret ∧
  a.environment = b.environment ∧
  a.ResourceManagerEndpoint = b.ResourceManagerEndpoint ∧
  a.ResourceManagerVMDNSSuffix = b.ResourceManagerVMDNSSuffix

/-! ## Concrete collaborators used to evaluate the code -/

/-- A receiver with every field at its Go zero value. -/
def zeroClients : AzureClients :=
  { Authorizer := Authorizer.null, environment := "", ResourceManagerEndpoint := "",
    ResourceManagerVMDNSSuffix := "", subscriptionID := "", tenantID := "", clientID := "",
    clientSecret := "" }

/-- The public cloud descriptor, with its management endpoint. -/
def publicEnvironment : azure.Environment :=
  { Name := "AzurePublicCloud", ResourceManagerEndpoint := "https://management.azure.com/" }

/-- The China cloud descriptor, with its management endpoint. -/
def chinaEnvironment : azure.Environment :=
  { Name := "AzureChinaCloud", ResourceManagerEndpoint := "https://management.chinacloudapi.cn/" }

/-- A map built from a list of key and value pairs, the first pair of a key
winning. -/
def Values.ofList (l : List (String × String)) : Values := fun k => l.lookup k

/-- Collaborators whose settings provider hands out `settings` and whose
authorizer construction always succeeds with the handle `7`. -/
def okCollaborators (settings : EnvironmentSettings) : Collaborators :=
  { GetSettingsFromEnvironment := Except.ok settings
    GetAuthorizer := fun _ => (Authorizer.handle 7, none) }

/-- Collaborators whose settings provider fails with `e`. -/
def noSettingsCollaborators (e : GoError) : Collaborators :=
  { GetSettingsFromEnvironment := Except.error e
    GetAuthorizer := fun _ => (Authorizer.handle 7, none) }

/-- Collaborators whose settings provider hands out `settings` and whose
authorizer construction always fails with `e`. -/
def noAuthorizerCollaborators (settings : EnvironmentSettings) (e : GoError) : Collaborators :=
  { GetSettingsFromEnvironment := Except.ok settings
    GetAuthorizer := fun _ => (Authorizer.null, some e) }

/-- Ambient settings of a public cloud deployment: a default subscription id
and a tenant id that carries one trailing newline. -/
def ambientPublic : EnvironmentSettings :=
  { Values := Values.ofList
      [("AZURE_SUBSCRIPTION_ID", "ambient-sub"), ("AZURE_TENANT_ID", "tenant-1\n"),
       ("AZURE_CLIENT_ID", "client-1\n"), ("AZURE_CLIENT_SECRET", "secret-1\n")]
    Environment := publicEnvironment }

/-- Ambient settings without a default subscription id. -/
def ambientNoSubscription : EnvironmentSettings :=
  { Values := Values.ofList [("AZURE_TENANT_ID", "tenant-1\n")]
    Environment := publicEnvironment }

/-- Ambient settings whose tenant id, client id and client secret each carry
two trailing newlines. -/
def ambientDoubleNewline : EnvironmentSettings :=
  { Values := Values.ofList
      [("AZURE_SUBSCRIPTION_ID", "ambient-sub"), ("AZURE_TENANT_ID", "tenant-1\n\n"),
       ("AZURE_CLIENT_ID", "client-1\n\n"), ("AZURE_CLIENT_SECRET", "secret-1\n\n")]
    Environment := publicEnvironment }

/-- Ambient settings with no `EnvironmentName` value whose environment
descriptor is the public cloud. -/
def ambientNoEnvironmentName : EnvironmentSettings :=
  { Values := Values.ofList [("AZURE_SUBSCRIPTION_ID", "ambient-sub")]
    Environment := publicEnvironment }

/-- Ambient settings whose `EnvironmentName` value is a lower-case spelling of
the China cloud, with the China cloud descriptor. -/
def ambientLowerCaseChina : EnvironmentSettings :=
  { Values := Values.ofList
      [("AZURE_SUBSCRIPTION_ID", "ambient-sub"), ("AZURE_ENVIRONMENT", "azurechinacloud")]
    Environment := chinaEnvironment }

/-- Ambient settings of a China cloud deployment, name and descriptor agreeing. -/
def ambientChina : EnvironmentSettings :=
  { Values := Values.ofList
      [("AZURE_SUBSCRIPTION_ID", "ambient-sub"), ("AZURE_ENVIRONMENT", "AzureChinaCloud")]
    Environment := chinaEnvironment }

/-- A test double: the settings provider hands out `settings`, and authorizer
construction inspects the settings it is invoked on, succeeding only when the
`SubscriptionID` value is `sub` and the `TenantID` value is `tenant` at that
moment. -/
def inspectingCollaborators (settings : EnvironmentSettings) (sub tenant : String) :
    Collaborators :=
  { GetSettingsFromEnvironment := Except.ok settings
    GetAuthorizer := fun s =>
      if s.Values.get auth.SubscriptionID = sub ∧ s.Values.get auth.TenantID = tenant then
        (Authorizer.handle 1, none)
      else (Authorizer.null, some ⟨"stale settings"⟩) }

/-- A receiver that already holds values from an earlier resolution. -/
def staleClients : AzureClients :=
  { Authorizer := Authorizer.handle 3, environment := "AzureGermanCloud",
    ResourceManagerEndpoint := "https://management.microsoftazure.de/",
    ResourceManagerVMDNSSuffix := "cloudapp.microsoftazure.de", subscriptionID := "old-sub",
    tenantID := "old-tenant", clientID := "old-client", clientSecret := "old-secret" }

/-- Ambient settings that hold a subscription id and an environment name that
is not one of the four known ones, and nothing else. -/
def ambientUnknownEnvironment : EnvironmentSettings :=
  { Values := Values.ofList
      [("AZURE_SUBSCRIPTION_ID", "ambient-sub"), ("AZURE_ENVIRONMENT", "AzureStackCloud")]
    Environment := { Name := "AzureStackCloud", ResourceManagerEndpoint := "" } }

/-- The four DNS suffixes of the table in `GetAzureDNSZoneForEnvironment`. -/
def knownDNSSuffixes : List String :=
  ["cloudapp.chinacloudapi.cn", "cloudapp.microsoftazure.de", "cloudapp.azure.com",
   "cloudapp.usgovcloudapi.net"]

/-- Ambient settings that hold a subscription id and nothing else: no tenant
id, client id, client secret or environment name. -/
def ambientSubscriptionOnly : EnvironmentSettings :=
  { Values := Values.ofList [("AZURE_SUBSCRIPTION_ID", "ambient-sub")]
    Environment := publicEnvironment }

/-! ## Helper lemmas -/

theorem resolveSubscriptionID_hint (settings : EnvironmentSettings) (h : String)
    (hne : h ≠ "") : resolveSubscriptionID settings h = Except.ok h := by
  simp [resolveSubscriptionID, hne]

theorem resolveSubscriptionID_default (settings : EnvironmentSettings)
    (hne : settings.GetSubscriptionID ≠ "") :
    resolveSubscriptionID settings "" = Except.ok settings.GetSubscriptionID := by
  simp [resolveSubscriptionID, hne]

theorem resolveSubscriptionID_missing (settings : EnvironmentSettings)
    (he : settings.GetSubscriptionID = "") :
    resolveSubscriptionID settings "" = Except.error (fmt.Errorf missingSubscriptionText) := by
  simp [resolveSubscriptionID, he]

/-- The run that reaches `GetAuthorizer`, in closed form. -/
theorem setCredentials_reached (env : Collaborators) (c : AzureClients) (h sub : String)
    (settings : EnvironmentSettings)
    (hs : env.GetSettingsFromEnvironment = Except.ok settings)
    (hr : resolveSubscriptionID settings h = Except.ok sub) :
    setCredentials env c h =
      { c := resolvedClients settings sub
          (env.GetAuthorizer (writtenBack settings sub
            (strings.TrimSuffix (settings.Values.get auth.TenantID) "\n"))).1
        err := (env.GetAuthorizer (writtenBack settings sub
            (strings.TrimSuffix (settings.Values.get auth.TenantID) "\n"))).2
        authorizerCalls := [writtenBack settings sub
            (strings.TrimSuffix (settings.Values.get auth.TenantID) "\n")] } := by
  by_cases he : settings.Values.get auth.EnvironmentName = ""
  · simp [setCredentials, hs, hr, resolvedClients, writtenBack, he]
  · simp [setCredentials, hs, hr, resolvedClients, writtenBack, he]

/-- The run in which the settings provider fails. -/
theorem setCredentials_noSettings (env : Collaborators) (c : AzureClients) (h : String)
    (e : GoError) (hs : env.GetSettingsFromEnvironment = Except.error e) :
    setCredentials env c h = { c := c, err := some e, authorizerCalls := [] } := by
  simp [setCredentials, hs]

/-- The run in which no subscription id can be resolved. -/
theorem setCredentials_unresolved (env : Collaborators) (c : AzureClients) (h : String)
    (settings : EnvironmentSettings) (e : GoError)
    (hs : env.GetSettingsFromEnvironment = Except.ok settings)
    (hr : resolveSubscriptionID settings h = Except.error e) :
    setCredentials env c h = { c := c, err := some e, authorizerCalls := [] } := by
  simp [setCredentials, hs, hr]

/-- A successful run resolved a subscription id. -/
theorem resolved_of_success (env : Collaborators) (c : AzureClients) (h : String)
    (settings : EnvironmentSettings)
    (hs : env.GetSettingsFromEnvironment = Except.ok settings)
    (hok : (setCredentials env c h).err = none) :
    ∃ sub, resolveSubscriptionID settings h = Except.ok sub := by
  cases hr : resolveSubscriptionID settings h with
  | error e =>
    rw [setCredentials_unresolved env c h settings e hs hr] at hok
    simp at hok
  | ok sub => exact ⟨sub, rfl⟩

/-- The subscription id block succeeds as soon as the hint or the ambient
default is not empty, with the hint taking precedence. -/
theorem resolveSubscriptionID_resolvable (settings : EnvironmentSettings) (h : String)
    (hne : h ≠ "" ∨ settings.GetSubscriptionID ≠ "") :
    resolveSubscriptionID settings h =
      Except.ok (if h = "" then settings.GetSubscriptionID else h) := by
  by_cases hh : h = ""
  · subst hh
    have hd : settings.GetSubscriptionID ≠ "" := by
      rcases hne with hne | hne
      · exact absurd rfl hne
      · exact hne
    simp [resolveSubscriptionID, hd]
  · simp [resolveSubscriptionID, hh]

theorem TrimSuffix_append_newline (t : String) :
    strings.TrimSuffix (t ++ "\n") "\n" = t := by
  have hd : (t ++ "\n").data = t.data ++ ['\n'] := by
    rw [String.data_append]
  have hn : ("\n" : String).data = ['\n'] := rfl
  have hsfx : strings.HasSuffix (t ++ "\n") "\n" = true := by
    simp [strings.HasSuffix, hd, hn]
  simp only [strings.TrimSuffix, hsfx, if_true, hd, hn]
  apply String.ext
  simp

theorem TrimSuffix_of_not_hasSuffix (s suffix : String)
    (h : strings.HasSuffix s suffix = false) : strings.TrimSuffix s suffix = s := by
  simp [strings.TrimSuffix, h]

theorem eq_append_newline_of_hasSuffix (s : String)
    (h : strings.HasSuffix s "\n" = true) : s = strings.TrimSuffix s "\n" ++ "\n" := by
  have hn : ("\n" : String).data = ['\n'] := rfl
  have h2 : 1 ≤ s.length ∧ s.data.drop (s.length - 1) = ['\n'] := by
    simpa [strings.HasSuffix, hn] using h
  have hl : s.data.length = s.length := rfl
  apply String.ext
  simp only [strings.TrimSuffix, h, if_true, String.data_append, hn, hl, List.length_singleton]
  have h3 := List.take_append_drop (s.length - 1) s.data
  rw [h2.2] at h3
  exact h3.symm

theorem writtenBack_get_SubscriptionID (settings : EnvironmentSettings)
    (sub tenant : String) :
    (writtenBack settings sub tenant).Values.get auth.SubscriptionID = sub := by
  simp [writtenBack, Values.set, Values.get, auth.SubscriptionID, auth.TenantID]

theorem writtenBack_get_TenantID (settings : EnvironmentSettings) (sub tenant : String) :
    (writtenBack settings sub tenant).Values.get auth.TenantID = tenant := by
  simp [writtenBack, Values.set, Values.get]

/-- What a successful subscription id block returns: a non-empty id, which is
the hint when that is not empty and the ambient default otherwise. -/
theorem resolveSubscriptionID_ok (settings : EnvironmentSettings) (h sub : String)
    (hr : resolveSubscriptionID settings h = Except.ok sub) :
    sub ≠ "" ∧ (h ≠ "" ∨ settings.GetSubscriptionID ≠ "") ∧
      sub = (if h = "" then settings.GetSubscriptionID else h) := by
  by_cases hh : h = ""
  · by_cases hd : settings.GetSubscriptionID = ""
    · simp [resolveSubscriptionID, hh, hd] at hr
    · simp [resolveSubscriptionID, hh, hd] at hr
      subst hr
      exact ⟨hd, Or.inr hd, by simp [hh]⟩
  · simp [resolveSubscriptionID, hh] at hr
    subst hr
    exact ⟨hh, Or.inl hh, by simp [hh]⟩

/-- The run past the subscription id block, in closed form. -/
theorem setCredentials_resolvable (env : Collaborators) (c : AzureClients) (h : String)
    (settings : EnvironmentSettings)
    (hs : env.GetSettingsFromEnvironment = Except.ok settings)
    (hres : h ≠ "" ∨ settings.GetSubscriptionID ≠ "") :
    setCredentials env c h =
      { c := resolvedClients settings (if h = "" then settings.GetSubscriptionID else h)
          (env.GetAuthorizer (writtenBack settings
            (if h = "" then settings.GetSubscriptionID else h)
            (strings.TrimSuffix (settings.Values.get auth.TenantID) "\n"))).1
        err := (env.GetAuthorizer (writtenBack settings
            (if h = "" then settings.GetSubscriptionID else h)
            (strings.TrimSuffix (settings.Values.get auth.TenantID) "\n"))).2
        authorizerCalls := [writtenBack settings
            (if h = "" then settings.GetSubscriptionID else h)
            (strings.TrimSuffix (settings.Values.get auth.TenantID) "\n")] } :=
  setCredentials_reached env c h _ settings hs
    (resolveSubscriptionID_resolvable settings h hres)

/-- A successful run had a successful settings provider. -/
theorem settings_of_success (env : Collaborators) (c : AzureClients) (h : String)
    (hok : (setCredentials env c h).err = none) :
    ∃ settings, env.GetSettingsFromEnvironment = Except.ok settings := by
  cases hs : env.GetSettingsFromEnvironment with
  | error e =>
    rw [setCredentials_noSettings env c h e hs] at hok
    simp at hok
  | ok settings => exact ⟨settings, rfl⟩

theorem GetAzureDNSZoneForEnvironment_mem (name : String) :
    GetAzureDNSZoneForEnvironment name ∈ knownDNSSuffixes := by
  unfold GetAzureDNSZoneForEnvironment knownDNSSuffixes
  split_ifs <;> simp

/-- The write-back leaves every key other than the two written ones as it
was. -/
theorem writtenBack_other_key (settings : EnvironmentSettings) (sub tenant k : String)
    (h1 : k ≠ auth.SubscriptionID) (h2 : k ≠ auth.TenantID) :
    (writtenBack settings sub tenant).Values k = settings.Values k := by
  simp [writtenBack, Values.set, h1, h2]

/-! ## The DNS zone table -/

/-- C1: `GetAzureDNSZoneForEnvironment` is a total function that maps the four
known environment names to their documented suffixes and every other string,
the empty string and other spellings of the known names among them, to
`cloudapp.azure.com`. -/
theorem C1_dns_zone_table :
    GetAzureDNSZoneForEnvironment "AzureChinaCloud" = "cloudapp.chinacloudapi.cn" ∧
    GetAzureDNSZoneForEnvironment "AzureGermanCloud" = "cloudapp.microsoftazure.de" ∧
    GetAzureDNSZoneForEnvironment "AzurePublicCloud" = "cloudapp.azure.com" ∧
    GetAzureDNSZoneForEnvironment "AzureUSGovernmentCloud" = "cloudapp.usgovcloudapi.net" ∧
    (∀ name : String,
      name ≠ "AzureChinaCloud" → name ≠ "AzureGermanCloud" →
      name ≠ "AzurePublicCloud" → name ≠ "AzureUSGovernmentCloud" →
      GetAzureDNSZoneForEnvironment name = "cloudapp.azure.com") := by
  refine ⟨by decide, by decide, by decide, by decide, ?_⟩
  intro name h1 h2 h3 h4
  simp [GetAzureDNSZoneForEnvironment, ChinaCloud, GermanCloud, PublicCloud,
    USGovernmentCloud, h1, h2, h3, h4]

/-- C1 at the empty string and at a lower-case spelling of a known name. -/
theorem C1_dns_zone_table_witness :
    GetAzureDNSZoneForEnvironment "" = "cloudapp.azure.com" ∧
    GetAzureDNSZoneForEnvironment "azurechinacloud" = "cloudapp.azure.com" :=
  ⟨C1_dns_zone_table.2.2.2.2 "" (by decide) (by decide) (by decide) (by decide),
   C1_dns_zone_table.2.2.2.2 "azurechinacloud" (by decide) (by decide) (by decide)
     (by decide)⟩

/-! ## Subscription id precedence -/

/-- C2: with a non-empty hint `h`, whatever the ambient settings hold, when the
settings provider and the authorizer construction succeed the call succeeds
and `SubscriptionID()` is `h` itself. -/
theorem C2_hint_used_verbatim (env : Collaborators) (c : AzureClients) (h : String)
    (settings : EnvironmentSettings)
    (hs : env.GetSettingsFromEnvironment = Except.ok settings)
    (hne : h ≠ "")
    (ha : (setCredentials env c h).authorizerSucceeded env) :
    (setCredentials env c h).err = none ∧
    (setCredentials env c h).c.SubscriptionID = h := by
  have hrun := setCredentials_reached env c h h settings hs
    (resolveSubscriptionID_hint settings h hne)
  have hcall := ha (writtenBack settings h
    (strings.TrimSuffix (settings.Values.get auth.TenantID) "\n")) (by rw [hrun]; simp)
  rw [hrun]
  exact ⟨hcall, rfl⟩

/-- C2 at the hint `sub-123` against ambient settings whose default is
`ambient-sub`. -/
theorem C2_hint_used_verbatim_witness :
    (setCredentials (okCollaborators ambientPublic) zeroClients "sub-123").err = none ∧
    (setCredentials (okCollaborators ambientPublic) zeroClients "sub-123").c.SubscriptionID
      = "sub-123" :=
  C2_hint_used_verbatim (okCollaborators ambientPublic) zeroClients "sub-123" ambientPublic
    rfl (by decide) (by intro s _; rfl)

/-- C3: with an empty hint and a non-empty ambient default subscription id, when
the settings provider and the authorizer construction succeed the call succeeds
and `SubscriptionID()` is the ambient default. -/
theorem C3_empty_hint_uses_ambient_default (env : Collaborators) (c : AzureClients)
    (settings : EnvironmentSettings)
    (hs : env.GetSettingsFromEnvironment = Except.ok settings)
    (hne : settings.GetSubscriptionID ≠ "")
    (ha : (setCredentials env c "").authorizerSucceeded env) :
    (setCredentials env c "").err = none ∧
    (setCredentials env c "").c.SubscriptionID = settings.GetSubscriptionID := by
  have hrun := setCredentials_reached env c "" settings.GetSubscriptionID settings hs
    (resolveSubscriptionID_default settings hne)
  have hcall := ha (writtenBack settings settings.GetSubscriptionID
    (strings.TrimSuffix (settings.Values.get auth.TenantID) "\n")) (by rw [hrun]; simp)
  rw [hrun]
  exact ⟨hcall, rfl⟩

/-- C3 against ambient settings whose default subscription id is `ambient-sub`. -/
theorem C3_empty_hint_uses_ambient_default_witness :
    (setCredentials (okCollaborators ambientPublic) zeroClients "").err = none ∧
    (setCredentials (okCollaborators ambientPublic) zeroClients "").c.SubscriptionID
      = "ambient-sub" :=
  C3_empty_hint_uses_ambient_default (okCollaborators ambientPublic) zeroClients ambientPublic
    rfl (by decide) (by intro s _; rfl)

/-- C4: with an empty hint and an empty ambient default subscription id the call
fails with the missing-subscription error, leaves the receiver as it was, and
makes no call of `GetAuthorizer`. -/
theorem C4_missing_subscription (env : Collaborators) (c : AzureClients)
    (settings : EnvironmentSettings)
    (hs : env.GetSettingsFromEnvironment = Except.ok settings)
    (he : settings.GetSubscriptionID = "") :
    (setCredentials env c "").err = some
      ⟨"error creating azure services. subscriptionID is not set in cluster or AZURE_SUBSCRIPTION_ID env var"⟩ ∧
    (setCredentials env c "").c = c ∧
    (setCredentials env c "").authorizerCalls = [] := by
  rw [setCredentials_unresolved env c "" settings _ hs
    (resolveSubscriptionID_missing settings he)]
  exact ⟨rfl, rfl, rfl⟩

/-- C4 against ambient settings that hold no subscription id. -/
theorem C4_missing_subscription_witness :
    (setCredentials (okCollaborators ambientNoSubscription) zeroClients "").err = some
      ⟨"error creating azure services. subscriptionID is not set in cluster or AZURE_SUBSCRIPTION_ID env var"⟩ ∧
    (setCredentials (okCollaborators ambientNoSubscription) zeroClients "").c = zeroClients ∧
    (setCredentials (okCollaborators ambientNoSubscription) zeroClients "").authorizerCalls
      = [] :=
  C4_missing_subscription (okCollaborators ambientNoSubscription) zeroClients
    ambientNoSubscription rfl (by decide)

/-! ## Trailing newlines -/

/-- C5: for a string `s` that does not end in a newline and for each of the keys
`TenantID`, `ClientID` and `ClientSecret` on its own, when the ambient value of
the key is `s` followed by one newline, a successful call leaves `s` itself in
the matching accessor. -/
theorem C5_one_trailing_newline_stripped (env : Collaborators) (c : AzureClients)
    (hint : String) (settings : EnvironmentSettings) (s : String)
    (hs : env.GetSettingsFromEnvironment = Except.ok settings)
    (hok : (setCredentials env c hint).err = none)
    (_hnl : strings.HasSuffix s "\n" = false) :
    (settings.Values.get auth.TenantID = s ++ "\n" →
      (setCredentials env c hint).c.TenantID = s) ∧
    (settings.Values.get auth.ClientID = s ++ "\n" →
      (setCredentials env c hint).c.ClientID = s) ∧
    (settings.Values.get auth.ClientSecret = s ++ "\n" →
      (setCredentials env c hint).c.ClientSecret = s) := by
  obtain ⟨sub, hr⟩ := resolved_of_success env c hint settings hs hok
  rw [setCredentials_reached env c hint sub settings hs hr]
  refine ⟨fun hv => ?_, fun hv => ?_, fun hv => ?_⟩
  · simp only [AzureClients.TenantID, resolvedClients, hv, TrimSuffix_append_newline]
  · simp only [AzureClients.ClientID, resolvedClients, hv, TrimSuffix_append_newline]
  · simp only [AzureClients.ClientSecret, resolvedClients, hv, TrimSuffix_append_newline]

/-- C5 at the ambient tenant id `tenant-1` followed by a newline, which resolves
to `tenant-1`. -/
theorem C5_one_trailing_newline_stripped_witness :
    (setCredentials (okCollaborators ambientPublic) zeroClients "").c.TenantID = "tenant-1" :=
  (C5_one_trailing_newline_stripped (okCollaborators ambientPublic) zeroClients ""
    ambientPublic "tenant-1" rfl (by decide) (by decide)).1 (by decide)

/-- C6, the claim refuted: an ambient tenant id that ends in two newlines
resolves to a tenant id that still ends in a newline, since only one is
removed. -/
theorem C6_two_newlines_counterexample :
    (setCredentials (okCollaborators ambientDoubleNewline) zeroClients "").err = none ∧
    ambientDoubleNewline.Values.get auth.TenantID = "tenant-1\n\n" ∧
    (setCredentials (okCollaborators ambientDoubleNewline) zeroClients "").c.TenantID
      = "tenant-1\n" ∧
    strings.HasSuffix
      (setCredentials (okCollaborators ambientDoubleNewline) zeroClients "").c.TenantID "\n"
      = true := by
  decide

/-- C6 as amended: after a successful call each of the tenant id, client id and
client secret is the ambient value with exactly one trailing newline removed
when the ambient value ends in a newline, and the ambient value unchanged
otherwise. -/
theorem C6_at_most_one_newline_trimmed (env : Collaborators) (c : AzureClients)
    (hint : String) (settings : EnvironmentSettings)
    (hs : env.GetSettingsFromEnvironment = Except.ok settings)
    (hok : (setCredentials env c hint).err = none) :
    ((strings.HasSuffix (settings.Values.get auth.TenantID) "\n" = true →
        settings.Values.get auth.TenantID = (setCredentials env c hint).c.TenantID ++ "\n") ∧
      (strings.HasSuffix (settings.Values.get auth.TenantID) "\n" = false →
        (setCredentials env c hint).c.TenantID = settings.Values.get auth.TenantID)) ∧
    ((strings.HasSuffix (settings.Values.get auth.ClientID) "\n" = true →
        settings.Values.get auth.ClientID = (setCredentials env c hint).c.ClientID ++ "\n") ∧
      (strings.HasSuffix (settings.Values.get auth.ClientID) "\n" = false →
        (setCredentials env c hint).c.ClientID = settings.Values.get auth.ClientID)) ∧
    ((strings.HasSuffix (settings.Values.get auth.ClientSecret) "\n" = true →
        settings.Values.get auth.ClientSecret
          = (setCredentials env c hint).c.ClientSecret ++ "\n") ∧
      (strings.HasSuffix (settings.Values.get auth.ClientSecret) "\n" = false →
        (setCredentials env c hint).c.ClientSecret = settings.Values.get auth.ClientSecret)) := by
  obtain ⟨sub, hr⟩ := resolved_of_success env c hint settings hs hok
  rw [setCredentials_reached env c hint sub settings hs hr]
  exact ⟨⟨eq_append_newline_of_hasSuffix _, TrimSuffix_of_not_hasSuffix _ _⟩,
    ⟨eq_append_newline_of_hasSuffix _, TrimSuffix_of_not_hasSuffix _ _⟩,
    ⟨eq_append_newline_of_hasSuffix _, TrimSuffix_of_not_hasSuffix _ _⟩⟩

/-- C6 as amended, at an ambient client secret that ends in two newlines: the
ambient value is the resolved one followed by one newline. -/
theorem C6_at_most_one_newline_trimmed_witness :
    "secret-1\n\n" =
      (setCredentials (okCollaborators ambientDoubleNewline) zeroClients "").c.ClientSecret
        ++ "\n" :=
  (C6_at_most_one_newline_trimmed (okCollaborators ambientDoubleNewline) zeroClients ""
    ambientDoubleNewline rfl (by decide)).2.2.1 (by decide)

/-! ## Environment name and DNS suffix -/

/-- C7: for every settings object handed out by the settings provider in which
the `EnvironmentName` value is absent or empty, a successful call leaves
`CloudEnvironment()` equal to `AzurePublicCloud` and
`ResourceManagerVMDNSSuffix` equal to `cloudapp.azure.com`. -/
theorem C7_absent_environment_name (env : Collaborators) (c : AzureClients)
    (hint : String) (settings : EnvironmentSettings)
    (hs : env.GetSettingsFromEnvironment = Except.ok settings)
    (hprov : settings.descriptorResolved)
    (hok : (setCredentials env c hint).err = none)
    (habs : settings.Values auth.EnvironmentName = none ∨
      settings.Values auth.EnvironmentName = some "") :
    (setCredentials env c hint).c.CloudEnvironment = "AzurePublicCloud" ∧
    (setCredentials env c hint).c.ResourceManagerVMDNSSuffix = "cloudapp.azure.com" := by
  obtain ⟨sub, hr⟩ := resolved_of_success env c hint settings hs hok
  rw [setCredentials_reached env c hint sub settings hs hr]
  have hget : settings.Values.get auth.EnvironmentName = "" := by
    rcases habs with h | h <;> simp [Values.get, h]
  have hname : settings.Environment.Name = "AzurePublicCloud" := hprov hget
  constructor
  · simp [AzureClients.CloudEnvironment, resolvedClients, hget, azure.PublicCloud.Name]
  · simp [resolvedClients, GetAzureDNSZoneForEnvironment, ChinaCloud, GermanCloud,
      PublicCloud, USGovernmentCloud, hname]

/-- C7 at ambient settings without an `EnvironmentName` value, for which the
provider installs the public cloud descriptor. -/
theorem C7_absent_environment_name_witness :
    (setCredentials (okCollaborators ambientNoEnvironmentName) zeroClients
      "sub-123").c.CloudEnvironment = "AzurePublicCloud" ∧
    (setCredentials (okCollaborators ambientNoEnvironmentName) zeroClients
      "sub-123").c.ResourceManagerVMDNSSuffix = "cloudapp.azure.com" :=
  C7_absent_environment_name (okCollaborators ambientNoEnvironmentName) zeroClients
    "sub-123" ambientNoEnvironmentName rfl (fun _ => rfl) (by decide) (Or.inl (by decide))

/-- C8, the claim refuted: with the ambient `EnvironmentName` value
`azurechinacloud` and the China cloud descriptor, the call succeeds with the
China DNS suffix, while `GetAzureDNSZoneForEnvironment` of `CloudEnvironment()`
is `cloudapp.azure.com`. -/
theorem C8_suffix_from_descriptor_counterexample :
    (setCredentials (okCollaborators ambientLowerCaseChina) zeroClients "").err = none ∧
    (setCredentials (okCollaborators ambientLowerCaseChina) zeroClients
      "").c.CloudEnvironment = "azurechinacloud" ∧
    (setCredentials (okCollaborators ambientLowerCaseChina) zeroClients
      "").c.ResourceManagerVMDNSSuffix = "cloudapp.chinacloudapi.cn" ∧
    GetAzureDNSZoneForEnvironment
      (setCredentials (okCollaborators ambientLowerCaseChina) zeroClients
        "").c.CloudEnvironment = "cloudapp.azure.com" ∧
    (setCredentials (okCollaborators ambientLowerCaseChina) zeroClients
      "").c.ResourceManagerVMDNSSuffix ≠
      GetAzureDNSZoneForEnvironment
        (setCredentials (okCollaborators ambientLowerCaseChina) zeroClients
          "").c.CloudEnvironment := by
  decide

/-- C8 as amended: after a successful call `ResourceManagerVMDNSSuffix` is
`GetAzureDNSZoneForEnvironment` applied to the name of the nested environment
descriptor of the settings object; it is `GetAzureDNSZoneForEnvironment` of
`CloudEnvironment()` whenever that name and `CloudEnvironment()` are equal. -/
theorem C8_suffix_from_descriptor (env : Collaborators) (c : AzureClients)
    (hint : String) (settings : EnvironmentSettings)
    (hs : env.GetSettingsFromEnvironment = Except.ok settings)
    (hok : (setCredentials env c hint).err = none) :
    (setCredentials env c hint).c.ResourceManagerVMDNSSuffix =
      GetAzureDNSZoneForEnvironment settings.Environment.Name ∧
    (settings.Environment.Name = (setCredentials env c hint).c.CloudEnvironment →
      (setCredentials env c hint).c.ResourceManagerVMDNSSuffix =
        GetAzureDNSZoneForEnvironment (setCredentials env c hint).c.CloudEnvironment) := by
  obtain ⟨sub, hr⟩ := resolved_of_success env c hint settings hs hok
  rw [setCredentials_reached env c hint sub settings hs hr]
  refine ⟨rfl, fun h => ?_⟩
  rw [← h]
  rfl

/-- C8 as amended, at the lower-case China settings and at settings whose name
and descriptor agree. -/
theorem C8_suffix_from_descriptor_witness :
    (setCredentials (okCollaborators ambientLowerCaseChina) zeroClients
      "").c.ResourceManagerVMDNSSuffix = GetAzureDNSZoneForEnvironment "AzureChinaCloud" ∧
    (setCredentials (okCollaborators ambientChina) zeroClients
      "").c.ResourceManagerVMDNSSuffix =
      GetAzureDNSZoneForEnvironment
        (setCredentials (okCollaborators ambientChina) zeroClients "").c.CloudEnvironment :=
  ⟨(C8_suffix_from_descriptor (okCollaborators ambientLowerCaseChina) zeroClients ""
      ambientLowerCaseChina rfl (by decide)).1,
   (C8_suffix_from_descriptor (okCollaborators ambientChina) zeroClients ""
      ambientChina rfl (by decide)).2 (by decide)⟩

/-! ## Write-back before authorizer construction, and failures -/

/-- C9: whenever the call reaches `GetAuthorizer` (which it does, exactly once,
as soon as the settings provider succeeds and the hint or the ambient default
is not empty), the settings seen by `GetAuthorizer` hold under `SubscriptionID`
the resolved subscription id (the hint when not empty, else the ambient
default) and under `TenantID` the resolved, newline-trimmed tenant id; these
are the values the receiver ends up with. -/
theorem C9_authorizer_sees_written_back (env : Collaborators) (c : AzureClients)
    (hint : String) (settings : EnvironmentSettings)
    (hs : env.GetSettingsFromEnvironment = Except.ok settings) :
    (hint ≠ "" ∨ settings.GetSubscriptionID ≠ "" →
      ∃ s, (setCredentials env c hint).authorizerCalls = [s]) ∧
    ∀ s ∈ (setCredentials env c hint).authorizerCalls,
      s.Values.get auth.SubscriptionID =
        (if hint = "" then settings.GetSubscriptionID else hint) ∧
      s.Values.get auth.SubscriptionID = (setCredentials env c hint).c.SubscriptionID ∧
      s.Values.get auth.TenantID =
        strings.TrimSuffix (settings.Values.get auth.TenantID) "\n" ∧
      s.Values.get auth.TenantID = (setCredentials env c hint).c.TenantID := by
  by_cases hres : hint ≠ "" ∨ settings.GetSubscriptionID ≠ ""
  · have hrun := setCredentials_reached env c hint _ settings hs
      (resolveSubscriptionID_resolvable settings hint hres)
    rw [hrun]
    refine ⟨fun _ => ⟨_, rfl⟩, fun s hmem => ?_⟩
    rw [List.mem_singleton] at hmem
    subst hmem
    rw [writtenBack_get_SubscriptionID, writtenBack_get_TenantID]
    exact ⟨rfl, rfl, rfl, rfl⟩
  · have hh : hint = "" := by
      by_contra hne
      exact hres (Or.inl hne)
    have hd : settings.GetSubscriptionID = "" := by
      by_contra hne
      exact hres (Or.inr hne)
    subst hh
    rw [setCredentials_unresolved env c "" settings _ hs
      (resolveSubscriptionID_missing settings hd)]
    refine ⟨fun h => absurd h hres, fun s hmem => ?_⟩
    simp at hmem

/-- C9 at the hint `sub-123` against ambient settings whose own subscription id
is `ambient-sub` and whose tenant id carries a newline: the settings seen by
`GetAuthorizer` hold `sub-123` and `tenant-1`, and a test double that accepts
only these values lets the call succeed. -/
theorem C9_authorizer_sees_written_back_witness :
    ambientPublic.Values.get auth.SubscriptionID = "ambient-sub" ∧
    ambientPublic.Values.get auth.TenantID = "tenant-1\n" ∧
    (setCredentials (inspectingCollaborators ambientPublic "sub-123" "tenant-1") zeroClients
      "sub-123").err = none ∧
    (writtenBack ambientPublic "sub-123" "tenant-1").Values.get auth.SubscriptionID
      = "sub-123" ∧
    (writtenBack ambientPublic "sub-123" "tenant-1").Values.get auth.TenantID
      = "tenant-1" :=
  ⟨by decide, by decide, by decide,
   ((C9_authorizer_sees_written_back
      (inspectingCollaborators ambientPublic "sub-123" "tenant-1") zeroClients "sub-123"
      ambientPublic rfl).2
      (writtenBack ambientPublic "sub-123" "tenant-1") (List.Mem.head _)).1,
   ((C9_authorizer_sees_written_back
      (inspectingCollaborators ambientPublic "sub-123" "tenant-1") zeroClients "sub-123"
      ambientPublic rfl).2
      (writtenBack ambientPublic "sub-123" "tenant-1") (List.Mem.head _)).2.2.1⟩

/-- C10: a failure of the settings provider is returned as it is, for every
hint; and when the settings provider succeeds and the hint or the ambient
default subscription id is not empty, a failure of `GetAuthorizer` is returned
as it is. -/
theorem C10_collaborator_failures_propagated (env : Collaborators) (c : AzureClients)
    (hint : String) :
    (∀ e, env.GetSettingsFromEnvironment = Except.error e →
      (setCredentials env c hint).err = some e) ∧
    (∀ settings e, env.GetSettingsFromEnvironment = Except.ok settings →
      (hint ≠ "" ∨ settings.GetSubscriptionID ≠ "") →
      (setCredentials env c hint).authorizerFailedWith env e →
      (setCredentials env c hint).err = some e) := by
  refine ⟨fun e he => ?_, fun settings e hs hres hfail => ?_⟩
  · rw [setCredentials_noSettings env c hint e he]
  · have hrun := setCredentials_reached env c hint _ settings hs
      (resolveSubscriptionID_resolvable settings hint hres)
    have hcall := hfail (writtenBack settings (if hint = "" then settings.GetSubscriptionID
      else hint) (strings.TrimSuffix (settings.Values.get auth.TenantID) "\n"))
      (by rw [hrun]; simp)
    rw [hrun]
    exact hcall

/-- C10 at a failing settings provider and at a failing authorizer
construction. -/
theorem C10_collaborator_failures_propagated_witness :
    (setCredentials (noSettingsCollaborators ⟨"settings unavailable"⟩) zeroClients
      "sub-123").err = some ⟨"settings unavailable"⟩ ∧
    (setCredentials (noAuthorizerCollaborators ambientPublic ⟨"invalid credentials"⟩)
      zeroClients "").err = some ⟨"invalid credentials"⟩ :=
  ⟨(C10_collaborator_failures_propagated (noSettingsCollaborators ⟨"settings unavailable"⟩)
      zeroClients "sub-123").1 ⟨"settings unavailable"⟩ rfl,
   (C10_collaborator_failures_propagated
      (noAuthorizerCollaborators ambientPublic ⟨"invalid credentials"⟩) zeroClients "").2
      ambientPublic ⟨"invalid credentials"⟩ rfl (Or.inr (by decide))
      (by intro s _; rfl)⟩

/-! ## The receiver after a failure -/

/-- C11, the claim refuted: when authorizer construction fails, the call returns
that error and the receiver, all fields at their zero values before the call,
holds the resolved subscription id and tenant id afterwards. -/
theorem C11_written_before_authorizer_counterexample :
    (setCredentials (noAuthorizerCollaborators ambientPublic ⟨"invalid credentials"⟩)
      zeroClients "").err = some ⟨"invalid credentials"⟩ ∧
    (setCredentials (noAuthorizerCollaborators ambientPublic ⟨"invalid credentials"⟩)
      zeroClients "").c.SubscriptionID = "ambient-sub" ∧
    (setCredentials (noAuthorizerCollaborators ambientPublic ⟨"invalid credentials"⟩)
      zeroClients "").c.TenantID = "tenant-1" ∧
    (setCredentials (noAuthorizerCollaborators ambientPublic ⟨"invalid credentials"⟩)
      zeroClients "").c ≠ zeroClients := by
  decide

/-- C11 as amended: when the settings provider fails, and when no subscription
id can be resolved, the call returns the error and the receiver after the call
equals the receiver before it. When authorizer construction fails with `e`, the
call returns `e` and the receiver has been written: its seven string fields
hold the resolved values and `Authorizer` holds the value that `GetAuthorizer`
returned together with the error. -/
theorem C11_receiver_after_failure (env : Collaborators) (c : AzureClients)
    (hint : String) :
    (∀ e, env.GetSettingsFromEnvironment = Except.error e →
      (setCredentials env c hint).err = some e ∧ (setCredentials env c hint).c = c) ∧
    (∀ settings, env.GetSettingsFromEnvironment = Except.ok settings →
      hint = "" → settings.GetSubscriptionID = "" →
      (setCredentials env c hint).err = some
        ⟨"error creating azure services. subscriptionID is not set in cluster or AZURE_SUBSCRIPTION_ID env var"⟩ ∧
      (setCredentials env c hint).c = c) ∧
    (∀ settings e, env.GetSettingsFromEnvironment = Except.ok settings →
      (hint ≠ "" ∨ settings.GetSubscriptionID ≠ "") →
      (env.GetAuthorizer (writtenBack settings
        (if hint = "" then settings.GetSubscriptionID else hint)
        (strings.TrimSuffix (settings.Values.get auth.TenantID) "\n"))).2 = some e →
      (setCredentials env c hint).err = some e ∧
      (setCredentials env c hint).c.subscriptionID
        = (if hint = "" then settings.GetSubscriptionID else hint) ∧
      (setCredentials env c hint).c.tenantID
        = strings.TrimSuffix (settings.Values.get auth.TenantID) "\n" ∧
      (setCredentials env c hint).c.clientID
        = strings.TrimSuffix (settings.Values.get auth.ClientID) "\n" ∧
      (setCredentials env c hint).c.clientSecret
        = strings.TrimSuffix (settings.Values.get auth.ClientSecret) "\n" ∧
      (setCredentials env c hint).c.environment
        = (if settings.Values.get auth.EnvironmentName = "" then "AzurePublicCloud"
            else settings.Values.get auth.EnvironmentName) ∧
      (setCredentials env c hint).c.ResourceManagerEndpoint
        = settings.Environment.ResourceManagerEndpoint ∧
      (setCredentials env c hint).c.ResourceManagerVMDNSSuffix
        = GetAzureDNSZoneForEnvironment settings.Environment.Name ∧
      (setCredentials env c hint).c.Authorizer
        = (env.GetAuthorizer (writtenBack settings
            (if hint = "" then settings.GetSubscriptionID else hint)
            (strings.TrimSuffix (settings.Values.get auth.TenantID) "\n"))).1) := by
  refine ⟨fun e he => ?_, fun settings hs hh hd => ?_, fun settings e hs hres hfail => ?_⟩
  · rw [setCredentials_noSettings env c hint e he]
    exact ⟨rfl, rfl⟩
  · subst hh
    rw [setCredentials_unresolved env c "" settings _ hs
      (resolveSubscriptionID_missing settings hd)]
    exact ⟨rfl, rfl⟩
  · rw [setCredentials_resolvable env c hint settings hs hres]
    exact ⟨hfail, rfl, rfl, rfl, rfl, rfl, rfl, rfl, rfl⟩

/-- C11 as amended, at a failing settings provider, at ambient settings without
a subscription id, and at a failing authorizer construction, each time from a
receiver that holds the values of an earlier resolution. -/
theorem C11_receiver_after_failure_witness :
    ((setCredentials (noSettingsCollaborators ⟨"settings unavailable"⟩) staleClients
        "sub-123").err = some ⟨"settings unavailable"⟩ ∧
      (setCredentials (noSettingsCollaborators ⟨"settings unavailable"⟩) staleClients
        "sub-123").c = staleClients) ∧
    (setCredentials (okCollaborators ambientNoSubscription) staleClients "").c
      = staleClients ∧
    (setCredentials (noAuthorizerCollaborators ambientPublic ⟨"invalid credentials"⟩)
      staleClients "").err = some ⟨"invalid credentials"⟩ ∧
    (setCredentials (noAuthorizerCollaborators ambientPublic ⟨"invalid credentials"⟩)
      staleClients "").c.subscriptionID = "ambient-sub" ∧
    (setCredentials (noAuthorizerCollaborators ambientPublic ⟨"invalid credentials"⟩)
      staleClients "").c.tenantID = "tenant-1" ∧
    (setCredentials (noAuthorizerCollaborators ambientPublic ⟨"invalid credentials"⟩)
      staleClients "").c.Authorizer = Authorizer.null :=
  ⟨(C11_receiver_after_failure (noSettingsCollaborators ⟨"settings unavailable"⟩)
      staleClients "sub-123").1 ⟨"settings unavailable"⟩ rfl,
   ((C11_receiver_after_failure (okCollaborators ambientNoSubscription) staleClients
      "").2.1 ambientNoSubscription rfl rfl (by decide)).2,
   ((C11_receiver_after_failure
      (noAuthorizerCollaborators ambientPublic ⟨"invalid credentials"⟩) staleClients
      "").2.2 ambientPublic ⟨"invalid credentials"⟩ rfl (Or.inr (by decide)) rfl).1,
   ((C11_receiver_after_failure
      (noAuthorizerCollaborators ambientPublic ⟨"invalid credentials"⟩) staleClients
      "").2.2 ambientPublic ⟨"invalid credentials"⟩ rfl (Or.inr (by decide)) rfl).2.1,
   ((C11_receiver_after_failure
      (noAuthorizerCollaborators ambientPublic ⟨"invalid credentials"⟩) staleClients
      "").2.2 ambientPublic ⟨"invalid credentials"⟩ rfl (Or.inr (by decide)) rfl).2.2.1,
   ((C11_receiver_after_failure
      (noAuthorizerCollaborators ambientPublic ⟨"invalid credentials"⟩) staleClients
      "").2.2 ambientPublic ⟨"invalid credentials"⟩ rfl (Or.inr (by decide))
      rfl).2.2.2.2.2.2.2.2⟩

/-! ## Invariants of a successful run -/

/-- C12: for every hint and every ambient settings object, when the call returns
without error `SubscriptionID()` is not empty. -/
theorem C12_subscription_never_empty (env : Collaborators) (c : AzureClients)
    (hint : String) (hok : (setCredentials env c hint).err = none) :
    (setCredentials env c hint).c.SubscriptionID ≠ "" := by
  obtain ⟨settings, hs⟩ := settings_of_success env c hint hok
  obtain ⟨sub, hr⟩ := resolved_of_success env c hint settings hs hok
  rw [setCredentials_reached env c hint sub settings hs hr]
  exact (resolveSubscriptionID_ok settings hint sub hr).1

/-- C12 at an empty hint against ambient settings with a default subscription
id. -/
theorem C12_subscription_never_empty_witness :
    (setCredentials (okCollaborators ambientPublic) staleClients "").c.SubscriptionID ≠ "" :=
  C12_subscription_never_empty (okCollaborators ambientPublic) staleClients "" (by decide)

/-- C13: for every hint and every ambient settings object, after a successful
call `ResourceManagerVMDNSSuffix` is not empty and is one of the four known
suffixes; and the values taken by `GetAzureDNSZoneForEnvironment` over all
strings are exactly these four. -/
theorem C13_suffix_is_known (env : Collaborators) (c : AzureClients) (hint : String) :
    ((setCredentials env c hint).err = none →
      (setCredentials env c hint).c.ResourceManagerVMDNSSuffix ≠ "" ∧
      (setCredentials env c hint).c.ResourceManagerVMDNSSuffix ∈
        ["cloudapp.chinacloudapi.cn", "cloudapp.microsoftazure.de", "cloudapp.azure.com",
         "cloudapp.usgovcloudapi.net"]) ∧
    (∀ z : String,
      (∃ name, GetAzureDNSZoneForEnvironment name = z) ↔
        z ∈ ["cloudapp.chinacloudapi.cn", "cloudapp.microsoftazure.de", "cloudapp.azure.com",
          "cloudapp.usgovcloudapi.net"]) := by
  constructor
  · intro hok
    obtain ⟨settings, hs⟩ := settings_of_success env c hint hok
    obtain ⟨sub, hr⟩ := resolved_of_success env c hint settings hs hok
    rw [setCredentials_reached env c hint sub settings hs hr]
    have hmem := GetAzureDNSZoneForEnvironment_mem settings.Environment.Name
    refine ⟨fun he => ?_, hmem⟩
    have hmem2 : GetAzureDNSZoneForEnvironment settings.Environment.Name
        ∈ knownDNSSuffixes := hmem
    have he2 : GetAzureDNSZoneForEnvironment settings.Environment.Name = "" := he
    rw [he2] at hmem2
    revert hmem2
    decide
  · intro z
    constructor
    · rintro ⟨name, rfl⟩
      exact GetAzureDNSZoneForEnvironment_mem name
    · intro hz
      simp only [List.mem_cons, List.mem_singleton, List.not_mem_nil, or_false] at hz
      rcases hz with rfl | rfl | rfl | rfl
      · exact ⟨"AzureChinaCloud", by decide⟩
      · exact ⟨"AzureGermanCloud", by decide⟩
      · exact ⟨"AzurePublicCloud", by decide⟩
      · exact ⟨"AzureUSGovernmentCloud", by decide⟩

/-- C13 at ambient settings whose environment is not one of the known ones. -/
theorem C13_suffix_is_known_witness :
    (setCredentials (okCollaborators ambientUnknownEnvironment) zeroClients
      "").c.ResourceManagerVMDNSSuffix ≠ "" ∧
    (setCredentials (okCollaborators ambientUnknownEnvironment) zeroClients
      "").c.ResourceManagerVMDNSSuffix ∈
        ["cloudapp.chinacloudapi.cn", "cloudapp.microsoftazure.de", "cloudapp.azure.com",
         "cloudapp.usgovcloudapi.net"] :=
  (C13_suffix_is_known (okCollaborators ambientUnknownEnvironment) zeroClients "").1
    (by decide)

/-- C14: for every hint and every ambient settings object, after a successful
call `CloudEnvironment()` is not empty: it is the ambient `EnvironmentName`
value itself when that is not empty, and `AzurePublicCloud` otherwise. -/
theorem C14_environment_never_empty (env : Collaborators) (c : AzureClients)
    (hint : String) (settings : EnvironmentSettings)
    (hs : env.GetSettingsFromEnvironment = Except.ok settings)
    (hok : (setCredentials env c hint).err = none) :
    (setCredentials env c hint).c.CloudEnvironment ≠ "" ∧
    (settings.Values.get auth.EnvironmentName ≠ "" →
      (setCredentials env c hint).c.CloudEnvironment
        = settings.Values.get auth.EnvironmentName) ∧
    (settings.Values.get auth.EnvironmentName = "" →
      (setCredentials env c hint).c.CloudEnvironment = "AzurePublicCloud") := by
  obtain ⟨sub, hr⟩ := resolved_of_success env c hint settings hs hok
  rw [setCredentials_reached env c hint sub settings hs hr]
  by_cases he : settings.Values.get auth.EnvironmentName = ""
  · refine ⟨?_, fun h => absurd he h, fun _ => ?_⟩
    · simp [AzureClients.CloudEnvironment, resolvedClients, he, azure.PublicCloud.Name]
    · simp [AzureClients.CloudEnvironment, resolvedClients, he, azure.PublicCloud.Name]
  · refine ⟨?_, fun _ => ?_, fun h => absurd h he⟩
    · simp [AzureClients.CloudEnvironment, resolvedClients, he]
    · simp [AzureClients.CloudEnvironment, resolvedClients, he]

/-- C14 at an ambient environment name that is passed through and at ambient
settings without one. -/
theorem C14_environment_never_empty_witness :
    (setCredentials (okCollaborators ambientUnknownEnvironment) zeroClients
      "").c.CloudEnvironment = "AzureStackCloud" ∧
    (setCredentials (okCollaborators ambientNoEnvironmentName) staleClients
      "").c.CloudEnvironment = "AzurePublicCloud" :=
  ⟨(C14_environment_never_empty (okCollaborators ambientUnknownEnvironment) zeroClients ""
      ambientUnknownEnvironment rfl (by decide)).2.1 (by decide),
   (C14_environment_never_empty (okCollaborators ambientNoEnvironmentName) staleClients ""
      ambientNoEnvironmentName rfl (by decide)).2.2 (by decide)⟩

/-! ## Determinism and assembly -/

/-- C15: resolution is deterministic in the ambient state. Two successive runs
of `setCredentials` with an empty hint against the same ambient settings and
collaborator results return the same error and end with the same
`subscriptionID`, `tenantID`, `clientID`, `clientSecret`, `environment`,
`ResourceManagerEndpoint` and `ResourceManagerVMDNSSuffix`; and two runs that
start from any two receivers return the same error and, when they succeed (or
more generally when the settings provider succeeds and the ambient default
subscription id is not empty), end with the same values of these fields,
whatever the receivers held before. -/
theorem C15_resolution_deterministic (env : Collaborators) :
    (∀ c : AzureClients,
      (setCredentials env (setCredentials env c "").c "").err = (setCredentials env c "").err ∧
      sameResolvedFields (setCredentials env (setCredentials env c "").c "").c
        (setCredentials env c "").c) ∧
    (∀ c₁ c₂ : AzureClients,
      (setCredentials env c₁ "").err = (setCredentials env c₂ "").err ∧
      (((setCredentials env c₁ "").err = none ∨
          ∃ settings, env.GetSettingsFromEnvironment = Except.ok settings ∧
            settings.GetSubscriptionID ≠ "") →
        sameResolvedFields (setCredentials env c₁ "").c (setCredentials env c₂ "").c)) := by
  refine ⟨fun c => ?_, fun c₁ c₂ => ⟨?_, fun h => ?_⟩⟩
  · cases hs : env.GetSettingsFromEnvironment with
    | error e =>
      simp only [fun x => setCredentials_noSettings env x "" e hs]
      exact ⟨trivial, rfl, rfl, rfl, rfl, rfl, rfl, rfl⟩
    | ok settings =>
      cases hr : resolveSubscriptionID settings "" with
      | error e =>
        simp only [fun x => setCredentials_unresolved env x "" settings e hs hr]
        exact ⟨trivial, rfl, rfl, rfl, rfl, rfl, rfl, rfl⟩
      | ok sub =>
        simp only [fun x => setCredentials_reached env x "" sub settings hs hr]
        exact ⟨trivial, rfl, rfl, rfl, rfl, rfl, rfl, rfl⟩
  · cases hs : env.GetSettingsFromEnvironment with
    | error e =>
      rw [setCredentials_noSettings env c₁ "" e hs, setCredentials_noSettings env c₂ "" e hs]
    | ok settings =>
      cases hr : resolveSubscriptionID settings "" with
      | error e =>
        rw [setCredentials_unresolved env c₁ "" settings e hs hr,
          setCredentials_unresolved env c₂ "" settings e hs hr]
      | ok sub =>
        rw [setCredentials_reached env c₁ "" sub settings hs hr,
          setCredentials_reached env c₂ "" sub settings hs hr]
  · have hreach : ∃ settings sub, env.GetSettingsFromEnvironment = Except.ok settings ∧
        resolveSubscriptionID settings "" = Except.ok sub := by
      rcases h with hok | ⟨settings, hs, hd⟩
      · obtain ⟨settings, hs⟩ := settings_of_success env c₁ "" hok
        obtain ⟨sub, hr⟩ := resolved_of_success env c₁ "" settings hs hok
        exact ⟨settings, sub, hs, hr⟩
      · exact ⟨settings, _, hs, resolveSubscriptionID_default settings hd⟩
    obtain ⟨settings, sub, hs, hr⟩ := hreach
    rw [setCredentials_reached env c₁ "" sub settings hs hr,
      setCredentials_reached env c₂ "" sub settings hs hr]
    exact ⟨rfl, rfl, rfl, rfl, rfl, rfl, rfl⟩

/-- C15 at a receiver with zero values and a receiver that holds the values of
an earlier resolution: after a successful run both hold the same seven values,
among them the tenant id `tenant-1`; and a second run on the first receiver
leaves these values as they are. -/
theorem C15_resolution_deterministic_witness :
    (setCredentials (okCollaborators ambientPublic) staleClients "").c.tenantID = "tenant-1" ∧
    sameResolvedFields (setCredentials (okCollaborators ambientPublic) zeroClients "").c
      (setCredentials (okCollaborators ambientPublic) staleClients "").c ∧
    sameResolvedFields
      (setCredentials (okCollaborators ambientPublic)
        (setCredentials (okCollaborators ambientPublic) zeroClients "").c "").c
      (setCredentials (okCollaborators ambientPublic) zeroClients "").c :=
  ⟨by decide,
   ((C15_resolution_deterministic (okCollaborators ambientPublic)).2 zeroClients
      staleClients).2 (Or.inl (by decide)),
   ((C15_resolution_deterministic (okCollaborators ambientPublic)).1 zeroClients).2⟩

/-- C16: on every successful run `ResourceManagerEndpoint` is the
`ResourceManagerEndpoint` of the environment descriptor of the settings object,
and `Authorizer` is the authorizer returned by the one call of `GetAuthorizer`,
made on the settings object with that same descriptor. -/
theorem C16_assembled_from_collaborator (env : Collaborators) (c : AzureClients)
    (hint : String) (settings : EnvironmentSettings)
    (hs : env.GetSettingsFromEnvironment = Except.ok settings)
    (hok : (setCredentials env c hint).err = none) :
    (setCredentials env c hint).c.ResourceManagerEndpoint
      = settings.Environment.ResourceManagerEndpoint ∧
    ∃ s, (setCredentials env c hint).authorizerCalls = [s] ∧
      s.Environment = settings.Environment ∧
      (setCredentials env c hint).c.Authorizer = (env.GetAuthorizer s).1 := by
  obtain ⟨sub, hr⟩ := resolved_of_success env c hint settings hs hok
  rw [setCredentials_reached env c hint sub settings hs hr]
  exact ⟨rfl, _, rfl, rfl, rfl⟩

/-- C16 at China cloud settings: the endpoint is the descriptor's, and the
authorizer is the handle the collaborator returns. -/
theorem C16_assembled_from_collaborator_witness :
    (setCredentials (okCollaborators ambientChina) staleClients "").c.ResourceManagerEndpoint
      = "https://management.chinacloudapi.cn/" ∧
    ∃ s, (setCredentials (okCollaborators ambientChina) staleClients "").authorizerCalls
        = [s] ∧
      s.Environment = chinaEnvironment ∧
      (setCredentials (okCollaborators ambientChina) staleClients "").c.Authorizer
        = ((okCollaborators ambientChina).GetAuthorizer s).1 :=
  C16_assembled_from_collaborator (okCollaborators ambientChina) staleClients ""
    ambientChina rfl (by decide)

/-! ## Frame of the write-back, and the success condition -/

/-- C17: the settings object on which `GetAuthorizer` is invoked differs from
the ambient one only under the keys `SubscriptionID` and `TenantID`: every
other key holds what it held, so `ClientID`, `ClientSecret` and
`EnvironmentName` are the ambient values, untrimmed, and the environment
descriptor is the same. -/
theorem C17_write_back_frame (env : Collaborators) (c : AzureClients) (hint : String)
    (settings : EnvironmentSettings)
    (hs : env.GetSettingsFromEnvironment = Except.ok settings) :
    ∀ s ∈ (setCredentials env c hint).authorizerCalls,
      (∀ k : String, k ≠ auth.SubscriptionID → k ≠ auth.TenantID →
        s.Values k = settings.Values k) ∧
      s.Values.get auth.ClientID = settings.Values.get auth.ClientID ∧
      s.Values.get auth.ClientSecret = settings.Values.get auth.ClientSecret ∧
      s.Values.get auth.EnvironmentName = settings.Values.get auth.EnvironmentName ∧
      s.Environment = settings.Environment := by
  intro s hmem
  cases hr : resolveSubscriptionID settings hint with
  | error e =>
    rw [setCredentials_unresolved env c hint settings e hs hr] at hmem
    simp at hmem
  | ok sub =>
    rw [setCredentials_reached env c hint sub settings hs hr, List.mem_singleton] at hmem
    subst hmem
    refine ⟨fun k h1 h2 => writtenBack_other_key settings _ _ k h1 h2, ?_, ?_, ?_, rfl⟩
    · simp only [Values.get]
      rw [writtenBack_other_key settings _ _ auth.ClientID (by decide) (by decide)]
    · simp only [Values.get]
      rw [writtenBack_other_key settings _ _ auth.ClientSecret (by decide) (by decide)]
    · simp only [Values.get]
      rw [writtenBack_other_key settings _ _ auth.EnvironmentName (by decide) (by decide)]

/-- C17 at ambient settings whose client id and client secret carry a newline:
`GetAuthorizer` sees them with the newline, while the receiver holds them
trimmed. -/
theorem C17_write_back_frame_witness :
    (writtenBack ambientPublic "ambient-sub" "tenant-1").Values.get auth.ClientID
      = "client-1\n" ∧
    (writtenBack ambientPublic "ambient-sub" "tenant-1").Values.get auth.ClientSecret
      = "secret-1\n" ∧
    (setCredentials (okCollaborators ambientPublic) zeroClients "").c.ClientID = "client-1" ∧
    (setCredentials (okCollaborators ambientPublic) zeroClients "").c.ClientSecret
      = "secret-1" :=
  ⟨((C17_write_back_frame (okCollaborators ambientPublic) zeroClients "" ambientPublic rfl)
      (writtenBack ambientPublic "ambient-sub" "tenant-1") (List.Mem.head _)).2.1,
   ((C17_write_back_frame (okCollaborators ambientPublic) zeroClients "" ambientPublic rfl)
      (writtenBack ambientPublic "ambient-sub" "tenant-1") (List.Mem.head _)).2.2.1,
   by decide, by decide⟩

/-- C18: the call returns without error exactly when the settings provider
succeeds, the hint or the ambient default subscription id is not empty, and
`GetAuthorizer` on the written-back settings succeeds; nothing else, such as an
empty tenant id, client id, client secret or environment name, or an
environment name that is not known, makes it fail. -/
theorem C18_success_condition (env : Collaborators) (c : AzureClients) (hint : String) :
    (setCredentials env c hint).err = none ↔
      ∃ settings, env.GetSettingsFromEnvironment = Except.ok settings ∧
        (hint ≠ "" ∨ settings.GetSubscriptionID ≠ "") ∧
        (env.GetAuthorizer (writtenBack settings
          (if hint = "" then settings.GetSubscriptionID else hint)
          (strings.TrimSuffix (settings.Values.get auth.TenantID) "\n"))).2 = none := by
  constructor
  · intro hok
    obtain ⟨settings, hs⟩ := settings_of_success env c hint hok
    obtain ⟨sub, hr⟩ := resolved_of_success env c hint settings hs hok
    have hres := (resolveSubscriptionID_ok settings hint sub hr).2.1
    rw [setCredentials_resolvable env c hint settings hs hres] at hok
    exact ⟨settings, hs, hres, hok⟩
  · rintro ⟨settings, hs, hres, hauth⟩
    rw [setCredentials_resolvable env c hint settings hs hres]
    exact hauth

/-- C18 at ambient settings that hold only a subscription id, and at ambient
settings whose environment name is not a known one: both runs succeed. -/
theorem C18_success_condition_witness :
    (setCredentials (okCollaborators ambientSubscriptionOnly) zeroClients "").err = none ∧
    (setCredentials (okCollaborators ambientUnknownEnvironment) zeroClients "sub-123").err
      = none :=
  ⟨(C18_success_condition (okCollaborators ambientSubscriptionOnly) zeroClients "").mpr
      ⟨ambientSubscriptionOnly, rfl, Or.inr (by decide), rfl⟩,
   (C18_success_condition (okCollaborators ambientUnknownEnvironment) zeroClients
      "sub-123").mpr ⟨ambientUnknownEnvironment, rfl, Or.inl (by decide), rfl⟩⟩

end scope
